import Mathlib

/-!
Verification of the zfs-restic orchestration scripts
(`zfs-restic-backup.py` and `zfs-check-unlocked.py`) against their
natural-language specification.  The Python sources are shallowly embedded:
pure helpers become Lean functions; every external command invocation is
represented by the `Completed` record the command would return, supplied by
an explicit `World`/`CheckWorld` environment; the `main` entry points are
functions from the environment to an explicit result record that tracks the
exit outcome, the set of existing snapshots and the issued destroy calls.
-/

/-! ### Python string primitives, modelled on `List Char` -/

/-- Python `str.strip()` on a character list: drop whitespace from both ends. -/
def pyStripChars (l : List Char) : List Char :=
  ((l.dropWhile Char.isWhitespace).reverse.dropWhile Char.isWhitespace).reverse

/-- Python `str.strip()`. -/
def pyStrip (s : String) : String := ⟨pyStripChars s.data⟩

/-- Helper for `pySplitlines`: split a character list at newline characters. -/
def splitLinesGo : List Char → List Char → List (List Char)
  | [], acc => [acc.reverse]
  | '\n' :: rest, acc =>
    if rest = [] then [acc.reverse] else acc.reverse :: splitLinesGo rest []
  | c :: rest, acc => splitLinesGo rest (c :: acc)

/-- Python `str.splitlines()` (restricted to the `\n` terminator, which is the
only one `zfs -H` output contains). The empty string yields no lines. -/
def pySplitlines (s : String) : List (List Char) :=
  if s.data = [] then [] else splitLinesGo s.data []

/-- Python `line.split("\t", 1)`: the part before the first tab and the part
after it (assuming a tab is present, which callers check with `"\t" in line`). -/
def tabSplit1 (l : List Char) : List Char × List Char :=
  (l.takeWhile (fun c => ¬ (c = '\t')), (l.dropWhile (fun c => ¬ (c = '\t'))).tail)

/-! ### Decimal rendering (Python `f"{n}"` / zero-padded `strftime` fields) -/

/-- Little-endian decimal digit characters of `n`, with `fuel ≥ n` as
termination measure (mirrors repeated `divmod 10`). -/
def decChars : Nat → Nat → List Char
  | 0, _ => []
  | fuel + 1, n => if n = 0 then [] else Nat.digitChar (n % 10) :: decChars fuel (n / 10)

/-- Python decimal formatting of a natural number, `f"{n}"`. -/
def natDec (n : Nat) : String := if n = 0 then "0" else ⟨(decChars n n).reverse⟩

/-- Numeric value of a decimal digit character. -/
def charVal (c : Char) : Nat := c.toNat - '0'.toNat

/-- Zero-pad to two digits (`strftime` `%m %d %H %M %S`). -/
def pad2 (n : Nat) : String := if n < 10 then "0" ++ natDec n else natDec n

/-- Zero-pad to four digits (`strftime` `%Y`). -/
def pad4 (n : Nat) : String :=
  if n < 10 then "000" ++ natDec n
  else if n < 100 then "00" ++ natDec n
  else if n < 1000 then "0" ++ natDec n
  else natDec n

/-! ### Python `int(...)` parsing -/

/-- After the leading digit: digits, with single underscores allowed between
digits (Python integer-literal grammar accepted by `int`). -/
def digitsUSRest : List Char → Bool
  | [] => true
  | '_' :: c :: cs => c.isDigit && digitsUSRest cs
  | c :: cs => c.isDigit && digitsUSRest cs

/-- Big-endian value of a digit-character list. -/
def decValBE (l : List Char) : Nat := l.foldl (fun a c => a * 10 + charVal c) 0

/-- Parse an unsigned decimal body as Python `int` does (underscore grouping
allowed), or `none` when the text is not a valid integer body. -/
def pyDigits? (l : List Char) : Option Nat :=
  match l with
  | [] => none
  | c :: cs =>
    if c.isDigit && digitsUSRest cs then
      some (decValBE (l.filter (fun d => ¬ (d = '_'))))
    else none

/-- Python `int(s)` on an already-stripped string: optional sign then a
decimal body; `none` models the `ValueError` raised on anything else. -/
def pyInt? (s : String) : Option Int :=
  match s.data with
  | '+' :: rest => (pyDigits? rest).map Int.ofNat
  | '-' :: rest => (pyDigits? rest).map (fun n => -(n : Int))
  | l => (pyDigits? l).map Int.ofNat

/-! ### `datetime` model -/

/-- A wall-clock instant as `datetime` exposes it (year 1..9999). -/
structure DT where
  year : Nat
  month : Nat
  day : Nat
  hour : Nat
  minute : Nat
  second : Nat
deriving DecidableEq

/-- `datetime.fromtimestamp(e)` (modelled at UTC): civil-from-days Gregorian
conversion; `none` models the `ValueError`/`OSError` the call raises — and the
source catches — when the instant falls outside the `datetime` year range. -/
def pyFromtimestamp (e : Int) : Option DT :=
  let days := e.fdiv 86400
  let secs := (e - days * 86400).toNat
  let z := days + 719468
  let era := z.fdiv 146097
  let doe := (z - era * 146097).toNat
  let yoe := (doe - doe / 1460 + doe / 36524 - doe / 146096) / 365
  let doy := doe - (365 * yoe + yoe / 4 - yoe / 100)
  let mp := (5 * doy + 2) / 153
  let d := doy - (153 * mp + 2) / 5 + 1
  let m := if mp < 10 then mp + 3 else mp - 9
  let y : Int := (yoe : Int) + era * 400 + (if m ≤ 2 then 1 else 0)
  if 1 ≤ y ∧ y ≤ 9999 then
    some ⟨y.toNat, m, d, secs / 3600, secs % 3600 / 60, secs % 60⟩
  else none

/-- `dt.strftime("%Y-%m-%d %H:%M:%S")` — the restic `--time` format. -/
def fmtFull (dt : DT) : String :=
  pad4 dt.year ++ "-" ++ pad2 dt.month ++ "-" ++ pad2 dt.day ++ " " ++
    pad2 dt.hour ++ ":" ++ pad2 dt.minute ++ ":" ++ pad2 dt.second

/-- `dt.strftime("%Y%m%d-%H%M%S")` — the snapshot-name timestamp. -/
def fmtCompact (dt : DT) : String :=
  pad4 dt.year ++ pad2 dt.month ++ pad2 dt.day ++ "-" ++
    pad2 dt.hour ++ pad2 dt.minute ++ pad2 dt.second

/-! ### External command results -/

/-- `subprocess.CompletedProcess` with captured text output. -/
structure Completed where
  returncode : Int
  stdout : String
  stderr : String
deriving DecidableEq

/-- `subprocess.CalledProcessError` (the data the claims need: the code). -/
structure CalledProcessError where
  returncode : Int
deriving DecidableEq

/-- `subprocess.run(cmd, check=check, ...)` given the process result the
command would produce: raises `CalledProcessError` iff `check` is set and the
exit status is nonzero. -/
def pyRun (res : Completed) (check : Bool) : Except CalledProcessError Completed :=
  if check = true ∧ ¬ (res.returncode = 0) then .error ⟨res.returncode⟩ else .ok res

/-! ### zfs-restic-backup.py -/

namespace ZfsResticBackup

/-- `run_cmd` of zfs-restic-backup.py (named `runCmd` here): runs a command; with `check=True` a
nonzero exit raises `CalledProcessError` (the default), with `check=False`
the completed result is returned to the caller. -/
def runCmd (res : Completed) (check : Bool) : Except CalledProcessError Completed :=
  pyRun res check

/-- `get_dataset_for_path` body loop: first listing line containing a tab
whose post-tab part (the mountpoint) equals `path`; its pre-tab part (the
dataset name) is returned. -/
def findDs (path : String) : List (List Char) → Option String
  | [] => none
  | l :: ls =>
    if '\t' ∈ l then
      if (⟨(tabSplit1 l).2⟩ : String) = path then some ⟨(tabSplit1 l).1⟩
      else findDs path ls
    else findDs path ls

/-- `get_dataset_for_path`, given the `zfs list -H -o name,mountpoint` result
(obtained in one `run_cmd(..., check=False, capture=True)` call): `None` on a
nonzero exit, otherwise the first exact mountpoint match. -/
def get_dataset_for_path (res : Completed) (path : String) : Option String :=
  if ¬ (res.returncode = 0) then none
  else findDs path (pySplitlines (pyStrip res.stdout))

/-- `get_encryption_root`, given the `zfs get -H -o value encryptionroot`
result (a `check=False` call): `None` on a nonzero exit, an empty value or
the `-` sentinel; otherwise the stripped value. -/
def get_encryption_root (res : Completed) : Option String :=
  if ¬ (res.returncode = 0) then none
  else
    let value := pyStrip res.stdout
    if value = "" ∨ value = "-" then none else some value

/-- `get_keystatus`, given the `zfs get -H -o value keystatus` result
(a `check=False` call): `None` on a nonzero exit or empty output. -/
def get_keystatus (res : Completed) : Option String :=
  if ¬ (res.returncode = 0) then none
  else
    let value := pyStrip res.stdout
    if value = "" then none else some value

/-- `get_snapshot_creation_time`, given the
`zfs get -H -p -o value creation` result (a `check=False` call): parse the
stripped output as a Python integer; values over `1e12` are nanosecond-scaled
and floor-divided by `1_000_000_000`; the epoch is rendered through
`datetime.fromtimestamp(..).strftime("%Y-%m-%d %H:%M:%S")`.  Nonzero exit,
empty output, unparsable output, or an out-of-range timestamp (the caught
`ValueError`/`OSError`) give `None`. -/
def get_snapshot_creation_time (res : Completed) : Option String :=
  if ¬ (res.returncode = 0) then none
  else
    let raw := pyStrip res.stdout
    if raw = "" then none
    else
      match pyInt? raw with
      | none => none
      | some epoch =>
        let epoch2 := if epoch > 10 ^ 12 then epoch.fdiv (10 ^ 9) else epoch
        match pyFromtimestamp epoch2 with
        | none => none
        | some dt => some (fmtFull dt)

/-- Python `args.index("--")` (callers guard with `"--" in args`). -/
def pyIndex (x : String) : List String → Nat
  | [] => 0
  | a :: rest => if a = x then 0 else pyIndex x rest + 1

/-- `parse_args` after the `--restic-bin` loop exited with a nonempty `args`:
`args[0]` is the mount point; if `"--"` occurs, everything after its first
occurrence is passed through to restic and everything between the mount point
and the separator is dropped. -/
def parseRest (restic_bin : Option String) (a : String) (rest : List String) :
    Option String × String × List String :=
  if "--" ∈ a :: rest then
    (restic_bin, pyStrip a, (a :: rest).drop (pyIndex "--" (a :: rest) + 1))
  else (restic_bin, pyStrip a, [])

/-- The `while args and args[0] == "--restic-bin"` loop of `parse_args`,
including the `("", "", [])` invalid marker for a trailing flag without a
value and the `(restic_bin, "", [])` result when no mount point remains. -/
def parseLoop (restic_bin : Option String) : List String → Option String × String × List String
  | [] => (restic_bin, "", [])
  | a :: rest =>
    if a = "--restic-bin" then
      match rest with
      | [] => (some "", "", [])
      | v :: rest2 => parseLoop (some (pyStrip v)) rest2
    else parseRest restic_bin a rest

/-- `parse_args(argv)` of zfs-restic-backup.py. -/
def parse_args (argv : List String) : Option String × String × List String :=
  parseLoop none argv

/-- The snapshot name format of `main`:
`f"zfs-restic-{pid}-{hostname}-{snap_ts.strftime('%Y%m%d-%H%M%S')}"`. -/
def snapName (pid : Nat) (host ts : String) : String :=
  "zfs-restic-" ++ natDec pid ++ "-" ++ host ++ "-" ++ ts

/-- `re.sub(r"[^a-zA-Z0-9-]", "-", nodename).strip("-") or "host"`. -/
def sanitizeHost (s : String) : String :=
  let mapped := s.data.map (fun c => if c.isAlphanum || c = '-' then c else '-')
  let stripped := ((mapped.dropWhile (fun c => c = '-')).reverse.dropWhile
      (fun c => c = '-')).reverse
  if stripped = [] then "host" else ⟨stripped⟩

/-- The behaviour of every external collaborator during one `main` run:
each field is the `CompletedProcess` the corresponding command invocation
returns, plus the filesystem predicates and process-global values `main`
reads. -/
structure World where
  resolve : String → String
  abspath : String → String
  isFile : String → Bool
  isExec : String → Bool
  isDir : String → Bool
  zfsVerFound : Bool
  zfsVer : Completed
  resticVerFound : Bool
  resticVer : Completed
  pid : Nat
  nodename : String
  now : DT
  listRes : Completed
  encRes : Completed
  ksRes : Completed
  snapCreate : Completed
  creationRes : Completed
  resticRes : Completed
  destroyRes : Completed

/-- The snapshot name a `main` run generates, lines 207-210. -/
def snapNameOf (w : World) : String :=
  snapName w.pid (sanitizeHost w.nodename) (fmtCompact w.now)

/-- How one `main` run ended: a `return code` or an uncaught exception. -/
inductive Outcome where
  | exit (code : Int)
  | raised (e : CalledProcessError)
deriving DecidableEq

/-- Observable result of one `main` run: the outcome, the snapshots of this
run that exist when it returns, the snapshot specs a destroy was issued for,
and the restic backup invocation (command list and working directory), if
reached. -/
structure MainRes where
  outcome : Outcome
  snaps : List String
  destroys : List String
  resticCall : Option (List String × String)
deriving DecidableEq

/-- Validation of the optional `--restic-bin` value, lines 160-170: falsy
value keeps `"restic"` from `PATH`; an explicit value is resolved and must be
an executable file, else `main` returns 1 (modelled as `none`). -/
def resticCmdResolve (w : World) : Option String → Option String
  | none => some "restic"
  | some b =>
    if b = "" then some "restic"
    else
      let p := w.resolve b
      if w.isFile p = false then none
      else if w.isExec p = false then none
      else some p

/-- Lines 231-266 of `main`: snapshot creation (a `check=True` `run_cmd`, so
a nonzero exit raises), creation-time resolution and view check (each
destroying the snapshot best-effort and returning 1 on failure), the restic
invocation (exit code forwarded verbatim, snapshot kept, on failure), and the
best-effort destroy on success. -/
def mainSnap (w : World) (restic_cmd source_path ds snap_name : String)
    (restic_cli_args : List String) : MainRes :=
  let snapshot_spec := ds ++ "@" ++ snap_name
  match runCmd w.snapCreate true with
  | .error e => ⟨.raised e, [], [], none⟩
  | .ok _ =>
    let restic_time := get_snapshot_creation_time w.creationRes
    if restic_time.getD "" = "" then
      ⟨.exit 1, if w.destroyRes.returncode = 0 then [] else [snapshot_spec],
        [snapshot_spec], none⟩
    else
      let snapshot_dir := source_path ++ "/.zfs/snapshot/" ++ snap_name
      if w.isDir snapshot_dir = false then
        ⟨.exit 1, if w.destroyRes.returncode = 0 then [] else [snapshot_spec],
          [snapshot_spec], none⟩
      else
        let cmd := [restic_cmd, "backup", "--time", restic_time.getD "", "."] ++
          restic_cli_args
        if ¬ (w.resticRes.returncode = 0) then
          ⟨.exit w.resticRes.returncode, [snapshot_spec], [],
            some (cmd, snapshot_dir)⟩
        else
          ⟨.exit 0, if w.destroyRes.returncode = 0 then [] else [snapshot_spec],
            [snapshot_spec], some (cmd, snapshot_dir)⟩

/-- Lines 212-229 of `main`: resolve the dataset (falsy result is terminal),
then the inline lock check — encryption root falsy means not encrypted;
otherwise keystatus `unavailable`/`locked` or anything other than
`available` returns 1. -/
def mainLock (w : World) (restic_cmd source_path snap_name : String)
    (restic_cli_args : List String) : MainRes :=
  match get_dataset_for_path w.listRes source_path with
  | none => ⟨.exit 1, [], [], none⟩
  | some ds =>
    if ds = "" then ⟨.exit 1, [], [], none⟩
    else
      let enc_root := (get_encryption_root w.encRes).getD ""
      if ¬ (enc_root = "") then
        let status := get_keystatus w.ksRes
        if status = some "unavailable" ∨ status = some "locked" then
          ⟨.exit 1, [], [], none⟩
        else if ¬ (status = some "available") then ⟨.exit 1, [], [], none⟩
        else mainSnap w restic_cmd source_path ds snap_name restic_cli_args
      else mainSnap w restic_cmd source_path ds snap_name restic_cli_args

/-- `main` of zfs-restic-backup.py: argument parsing, restic-binary
validation, version pre-flight for both tools, mount-point directory check,
then the lock-check/snapshot/backup sequence. -/
def main (argv : List String) (w : World) : MainRes :=
  match parse_args argv with
  | (restic_bin, mount_point, restic_cli_args) =>
    if mount_point = "" then ⟨.exit 1, [], [], none⟩
    else
      match resticCmdResolve w restic_bin with
      | none => ⟨.exit 1, [], [], none⟩
      | some restic_cmd =>
        let source_path := w.abspath mount_point
        if w.zfsVerFound = false then ⟨.exit 1, [], [], none⟩
        else if ¬ (w.zfsVer.returncode = 0) then ⟨.exit 1, [], [], none⟩
        else if w.resticVerFound = false then ⟨.exit 1, [], [], none⟩
        else if ¬ (w.resticVer.returncode = 0) then ⟨.exit 1, [], [], none⟩
        else if w.isDir source_path = false then ⟨.exit 1, [], [], none⟩
        else
          mainLock w restic_cmd source_path (snapNameOf w) restic_cli_args

end ZfsResticBackup

/-! ### zfs-check-unlocked.py -/

namespace ZfsCheckUnlocked

/-- `run_cmd` of zfs-check-unlocked.py (named `runCmd` here): always calls
`subprocess.run(..., check=False)`, so it returns the completed result for
every exit status and can never raise `CalledProcessError`. -/
def runCmd (res : Completed) : Except CalledProcessError Completed :=
  pyRun res false

/-- The matching loop of `get_dataset_for_path` (identical to the one in
zfs-restic-backup.py). -/
def findDs (path : String) : List (List Char) → Option String
  | [] => none
  | l :: ls =>
    if '\t' ∈ l then
      if (⟨(tabSplit1 l).2⟩ : String) = path then some ⟨(tabSplit1 l).1⟩
      else findDs path ls
    else findDs path ls

/-- `get_dataset_for_path` of zfs-check-unlocked.py, given the
`zfs list -H -o name,mountpoint` result obtained in one `run_cmd` call;
the body is identical to the one in zfs-restic-backup.py. -/
def get_dataset_for_path (res : Completed) (path : String) : Option String :=
  if ¬ (res.returncode = 0) then none
  else findDs path (pySplitlines (pyStrip res.stdout))

/-- `get_encryption_root` of zfs-check-unlocked.py (same body as in
zfs-restic-backup.py). -/
def get_encryption_root (res : Completed) : Option String :=
  if ¬ (res.returncode = 0) then none
  else
    let value := pyStrip res.stdout
    if value = "" ∨ value = "-" then none else some value

/-- `get_keystatus` of zfs-check-unlocked.py (same body as in
zfs-restic-backup.py). -/
def get_keystatus (res : Completed) : Option String :=
  if ¬ (res.returncode = 0) then none
  else
    let value := pyStrip res.stdout
    if value = "" then none else some value

/-- The external behaviour one zfs-check-unlocked.py run observes:
`os.path.abspath`, the single dataset listing, and per-dataset results of the
`encryptionroot` and `keystatus` queries. -/
structure CheckWorld where
  abspath : String → String
  listRes : Completed
  encRootOf : String → Completed
  keystatusOf : String → Completed

/-- Python `f"{status}"` for an optional string: `None` prints as `None`. -/
def pyShowOpt : Option String → String
  | none => "None"
  | some s => s

/-- The locked-dataset diagnostic of `check_path`. -/
def lockedMsg (resolved enc_root : String) : String :=
  "Dataset is LOCKED: " ++ resolved ++ " (encryption root " ++ enc_root ++
    ") — unlock the dataset first"

/-- The unexpected-keystatus diagnostic of `check_path`. -/
def unexpectedMsg (status : Option String) (enc_root resolved : String) : String :=
  "Unexpected keystatus " ++ pyShowOpt status ++ " for " ++ enc_root ++
    " (" ++ resolved ++ ")"

/-- The dataset-resolution-failure diagnostic of `check_path`. -/
def noDatasetMsg (resolved : String) : String :=
  "No ZFS dataset with mountpoint: " ++ resolved

/-- `check_path` of zfs-check-unlocked.py: resolve the path to a dataset,
report `None` (OK) for an unencrypted dataset without querying keystatus,
otherwise classify the encryption root's keystatus; any result other than
`available` is an error message. -/
def check_path (w : CheckWorld) (path : String) : Option String :=
  let resolved := w.abspath path
  match get_dataset_for_path w.listRes resolved with
  | none => some (noDatasetMsg resolved)
  | some ds =>
    if ds = "" then some (noDatasetMsg resolved)
    else
      let enc_root := (get_encryption_root (w.encRootOf ds)).getD ""
      if enc_root = "" then none
      else
        let status := get_keystatus (w.keystatusOf enc_root)
        if status = some "unavailable" ∨ status = some "locked" then
          some (lockedMsg resolved enc_root)
        else if ¬ (status = some "available") then
          some (unexpectedMsg status enc_root resolved)
        else none

/-- `main` of zfs-check-unlocked.py: with no path arguments print usage and
return 1; otherwise check every argument (stripped; empty ones are skipped),
print one diagnostic line to stderr per failing path, and return 1 when any
path failed, 0 otherwise.  The result is the exit code paired with the
stderr lines in order. -/
def main (w : CheckWorld) (argv : List String) : Int × List String :=
  if argv = [] then (1, ["Usage: zfs-check-unlocked.py <path> [<path> ...]"])
  else
    let errs := argv.filterMap (fun a =>
      let path := pyStrip a
      if path = "" then none else check_path w path)
    (if errs = [] then 0 else 1, errs)

end ZfsCheckUnlocked

/-! ### Decimal rendering: round-trip and injectivity -/

/-- Little-endian numeric value of a digit-character list. -/
def decDigitsVal : List Char → Nat
  | [] => 0
  | c :: cs => charVal c + 10 * decDigitsVal cs

theorem charVal_digitChar (d : Nat) (h : d < 10) : charVal (Nat.digitChar d) = d := by
  interval_cases d <;> rfl

theorem decChars_val : ∀ (fuel n : Nat), n ≤ fuel → decDigitsVal (decChars fuel n) = n := by
  intro fuel
  induction fuel with
  | zero => intro n h; interval_cases n; rfl
  | succ fuel ih =>
    intro n h
    by_cases h0 : n = 0
    · subst h0; simp [decChars, decDigitsVal]
    · have hlt : n / 10 < n := Nat.div_lt_self (Nat.pos_of_ne_zero h0) (by omega)
      have : decDigitsVal (decChars fuel (n / 10)) = n / 10 := ih _ (by omega)
      simp only [decChars, h0, if_false, decDigitsVal, this,
        charVal_digitChar (n % 10) (Nat.mod_lt n (by omega))]
      omega

theorem natDec_val (n : Nat) : decDigitsVal ((natDec n).data.reverse) = n := by
  by_cases h0 : n = 0
  · subst h0; rfl
  · simp only [natDec, h0, if_false]
    show decDigitsVal (decChars n n).reverse.reverse = n
    rw [List.reverse_reverse]
    exact decChars_val n n le_rfl

theorem natDec_injective : Function.Injective natDec := by
  intro m n h
  have := congrArg (fun s => decDigitsVal s.data.reverse) h
  simpa only [natDec_val] using this

theorem snapName_pid_inj (p q : Nat) (host ts : String)
    (h : ZfsResticBackup.snapName p host ts = ZfsResticBackup.snapName q host ts) :
    p = q := by
  have hd := congrArg String.data h
  simp only [ZfsResticBackup.snapName, String.data_append] at hd
  have h1 := List.append_cancel_right hd
  have h2 := List.append_cancel_right h1
  have h3 := List.append_cancel_right h2
  have h4 := List.append_cancel_right h3
  have h5 := List.append_cancel_left h4
  have h6 := congrArg (fun l : List Char => decDigitsVal l.reverse) h5
  simp only [natDec_val] at h6
  exact h6

/-- Claim C5: snapshot names generated in the same second on the same host by
two processes with distinct pids are distinct, and every generated name has
the form zfs-restic-(pid)-(host)-(YYYYMMDD-HHMMSS). -/
theorem claim_C5 :
    (∀ (p q : Nat) (host ts : String), ¬ p = q →
      ¬ ZfsResticBackup.snapName p host ts = ZfsResticBackup.snapName q host ts) ∧
    (∀ (w : ZfsResticBackup.World),
      ZfsResticBackup.snapNameOf w =
        "zfs-restic-" ++ natDec w.pid ++ "-" ++ ZfsResticBackup.sanitizeHost w.nodename ++
          "-" ++ fmtCompact w.now) := by
  constructor
  · intro p q host ts hne h
    exact hne (snapName_pid_inj p q host ts h)
  · intro w
    rfl

/-- Witness for claim C5 at concrete inputs: pids 101 and 102, same host and
same second, give different names. -/
theorem claim_C5_witness :
    ¬ (101 : Nat) = 102 ∧
      ¬ ZfsResticBackup.snapName 101 "myhost" "20240101-000000" =
        ZfsResticBackup.snapName 102 "myhost" "20240101-000000" :=
  ⟨by decide, claim_C5.1 101 102 "myhost" "20240101-000000" (by decide)⟩

/-! ### parse_args: what happens between the mount point and the separator -/

theorem pyIndex_concat (x : String) : ∀ (l r : List String), x ∉ l →
    ZfsResticBackup.pyIndex x (l ++ x :: r) = l.length := by
  intro l
  induction l with
  | nil => intro r _; simp [ZfsResticBackup.pyIndex]
  | cons a l ih =>
    intro r h
    have ha : ¬ a = x := fun e => h (by simp [e])
    simp [ZfsResticBackup.pyIndex, ha, ih r (fun hx => h (List.mem_cons_of_mem _ hx))]

theorem drop_concat (x : String) (r : List String) : ∀ (l : List String),
    (l ++ x :: r).drop (l.length + 1) = r := by
  intro l
  induction l with
  | nil => simp
  | cons a l ih => simp [ih]

/-- Claim C10: when the argument list contains a `--` separator, only the
first positional argument becomes the mount point, and everything between it
and the separator is dropped: it appears neither as the mount point nor in
the arguments forwarded to restic. -/
theorem claim_C10 (mount : String) (mid rest : List String)
    (h1 : ¬ mount = "--restic-bin") (h2 : ¬ mount = "--") (h3 : "--" ∉ mid) :
    ZfsResticBackup.parse_args (mount :: mid ++ "--" :: rest) =
      (none, pyStrip mount, rest) := by
  have hnm : "--" ∉ mount :: mid := by
    intro hm
    rcases List.mem_cons.mp hm with h | h
    · exact h2 h.symm
    · exact h3 h
  have hmem : "--" ∈ mount :: (mid ++ "--" :: rest) :=
    List.mem_cons_of_mem _ (List.mem_append_right _ (List.mem_cons_self _ _))
  have hsplit : mount :: (mid ++ "--" :: rest) = (mount :: mid) ++ "--" :: rest := by
    simp
  show ZfsResticBackup.parseLoop none (mount :: (mid ++ "--" :: rest)) = _
  rw [ZfsResticBackup.parseLoop.eq_def]
  simp only [if_neg h1, ZfsResticBackup.parseRest, if_pos hmem]
  rw [hsplit, pyIndex_concat "--" (mount :: mid) rest hnm,
    drop_concat "--" rest (mount :: mid)]

/-- Witness for claim C10: the argument `ignored` between the mount point and
the separator is discarded. -/
theorem claim_C10_witness :
    ZfsResticBackup.parse_args ["/mnt/data", "ignored", "--", "--tag", "t1"] =
      (none, pyStrip "/mnt/data", ["--tag", "t1"]) :=
  claim_C10 "/mnt/data" ["ignored"] ["--tag", "t1"]
    (by decide) (by decide) (by decide)

/-- Claim C6: creation-timestamp resolution parses the collaborator output as
a Python integer; values above the 10^12 threshold are floor-divided by 10^9;
the result is rendered in the YYYY-MM-DD HH:MM:SS format; a nonzero
collaborator exit, empty output, or a non-integer value yields None. -/
theorem claim_C6 (res : Completed) :
    (¬ res.returncode = 0 → ZfsResticBackup.get_snapshot_creation_time res = none) ∧
    (pyStrip res.stdout = "" → ZfsResticBackup.get_snapshot_creation_time res = none) ∧
    (pyInt? (pyStrip res.stdout) = none →
      ZfsResticBackup.get_snapshot_creation_time res = none) ∧
    (∀ v : Int, res.returncode = 0 → pyInt? (pyStrip res.stdout) = some v →
      ZfsResticBackup.get_snapshot_creation_time res =
        (pyFromtimestamp (if v > 10 ^ 12 then v.fdiv (10 ^ 9) else v)).map fmtFull) := by
  refine ⟨?_, ?_, ?_, ?_⟩
  · intro h
    simp [ZfsResticBackup.get_snapshot_creation_time, h]
  · intro h
    by_cases hrc : res.returncode = 0 <;>
      simp [ZfsResticBackup.get_snapshot_creation_time, hrc, h]
  · intro h
    by_cases hrc : res.returncode = 0 <;>
      by_cases hraw : pyStrip res.stdout = "" <;>
        simp [ZfsResticBackup.get_snapshot_creation_time, hrc, hraw, h]
  · intro v h0 hv
    have hraw : ¬ pyStrip res.stdout = "" := by
      intro he
      have hnone : pyInt? "" = none := rfl
      rw [he, hnone] at hv
      cases hv
    simp only [ZfsResticBackup.get_snapshot_creation_time, h0, not_true_eq_false,
      if_false, if_neg hraw, hv]
    cases pyFromtimestamp (if v > 10 ^ 12 then v.fdiv (10 ^ 9) else v) <;> simp

/-- Witness for claim C6: a plain-seconds epoch and its nanosecond-scaled
variant both resolve to 2024-01-01 00:00:00. -/
theorem claim_C6_witness :
    ZfsResticBackup.get_snapshot_creation_time ⟨0, "1704067200", ""⟩ =
        some "2024-01-01 00:00:00" ∧
      ZfsResticBackup.get_snapshot_creation_time ⟨0, "1704067200000000000", ""⟩ =
        some "2024-01-01 00:00:00" := by
  constructor
  · have h := (claim_C6 ⟨0, "1704067200", ""⟩).2.2.2 1704067200 (by decide) (by decide)
    rw [h]; decide
  · have h := (claim_C6 ⟨0, "1704067200000000000", ""⟩).2.2.2 1704067200000000000
      (by decide) (by decide)
    rw [h]; decide

/-! ### Dataset resolution: exact-match characterization -/

/-- The `(name, mountpoint)` pairs the listing parse loop iterates over:
stripped stdout, split into lines, keeping lines with a tab, split at the
first tab. -/
def entriesOf (stdout : String) : List (String × String) :=
  (pySplitlines (pyStrip stdout)).filterMap (fun l =>
    if '\t' ∈ l then
      some ((⟨(tabSplit1 l).1⟩ : String), (⟨(tabSplit1 l).2⟩ : String))
    else none)

theorem findDs_eq_find? (path : String) : ∀ lines : List (List Char),
    ZfsResticBackup.findDs path lines =
      ((lines.filterMap (fun l =>
          if '\t' ∈ l then
            some ((⟨(tabSplit1 l).1⟩ : String), (⟨(tabSplit1 l).2⟩ : String))
          else none)).find? (fun e => e.2 == path)).map Prod.fst := by
  intro lines
  induction lines with
  | nil => rfl
  | cons l ls ih =>
    by_cases ht : '\t' ∈ l
    · by_cases hm : (⟨(tabSplit1 l).2⟩ : String) = path
      · simp [ZfsResticBackup.findDs, ht, hm, List.find?]
      · simp [ZfsResticBackup.findDs, ht, hm, List.find?, ih]
    · simp [ZfsResticBackup.findDs, ht, ih]

/-- Claim C7: both scripts share the same dataset resolution; it fails on a
nonzero listing exit; on success it returns the name of the first listing
entry whose mountpoint equals the input path exactly; when no entry has an
exactly equal mountpoint (prefix overlap included) the result is None; and
`check_path` turns this None into its terminal no-dataset diagnostic. -/
theorem claim_C7 :
    (ZfsCheckUnlocked.get_dataset_for_path = ZfsResticBackup.get_dataset_for_path) ∧
    (∀ (res : Completed) (path : String), ¬ res.returncode = 0 →
      ZfsResticBackup.get_dataset_for_path res path = none) ∧
    (∀ (res : Completed) (path : String), res.returncode = 0 →
      ZfsResticBackup.get_dataset_for_path res path =
        ((entriesOf res.stdout).find? (fun e => e.2 == path)).map Prod.fst) ∧
    (∀ (res : Completed) (path : String),
      (∀ e ∈ entriesOf res.stdout, ¬ e.2 = path) →
      ZfsResticBackup.get_dataset_for_path res path = none) ∧
    (∀ (w : ZfsCheckUnlocked.CheckWorld) (p : String),
      ZfsCheckUnlocked.get_dataset_for_path w.listRes (w.abspath p) = none →
      ZfsCheckUnlocked.check_path w p =
        some (ZfsCheckUnlocked.noDatasetMsg (w.abspath p))) := by
  have hchar : ∀ (res : Completed) (path : String), res.returncode = 0 →
      ZfsResticBackup.get_dataset_for_path res path =
        ((entriesOf res.stdout).find? (fun e => e.2 == path)).map Prod.fst := by
    intro res path h
    simp only [ZfsResticBackup.get_dataset_for_path, h, not_true_eq_false, if_false]
    exact findDs_eq_find? path _
  have hfind : ∀ (path : String) (lines : List (List Char)),
      ZfsCheckUnlocked.findDs path lines = ZfsResticBackup.findDs path lines := by
    intro path lines
    induction lines with
    | nil => rfl
    | cons l ls ih => simp [ZfsCheckUnlocked.findDs, ZfsResticBackup.findDs, ih]
  refine ⟨?_, ?_, hchar, ?_, ?_⟩
  · funext res path
    simp [ZfsCheckUnlocked.get_dataset_for_path, ZfsResticBackup.get_dataset_for_path,
      hfind]
  · intro res path h
    simp [ZfsResticBackup.get_dataset_for_path, h]
  · intro res path h
    by_cases hrc : res.returncode = 0
    · rw [hchar res path hrc]
      have : (entriesOf res.stdout).find? (fun e => e.2 == path) = none := by
        rw [List.find?_eq_none]
        intro e he
        simpa using h e he
      rw [this]
      rfl
    · simp [ZfsResticBackup.get_dataset_for_path, hrc]
  · intro w p h
    simp [ZfsCheckUnlocked.check_path, h]

/-- Witness for claim C7: a listing whose only mountpoint is a strict prefix
of the requested path yields None; an exact match yields the dataset name. -/
theorem claim_C7_witness :
    ZfsResticBackup.get_dataset_for_path ⟨0, "tank/data\t/mnt/data", ""⟩
        "/mnt/data/sub" = none ∧
      ZfsResticBackup.get_dataset_for_path ⟨0, "tank/data\t/mnt/data", ""⟩
        "/mnt/data" = some "tank/data" := by
  constructor
  · have h := claim_C7.2.2.2.1 ⟨0, "tank/data\t/mnt/data", ""⟩ "/mnt/data/sub"
      (by decide)
    exact h
  · have h := claim_C7.2.2.1 ⟨0, "tank/data\t/mnt/data", ""⟩ "/mnt/data" (by decide)
    rw [h]; decide

/-! ### Encryption-state classification -/

theorem get_encryption_root_ne_empty (res : Completed) (v : String)
    (h : ZfsCheckUnlocked.get_encryption_root res = some v) : ¬ v = "" := by
  unfold ZfsCheckUnlocked.get_encryption_root at h
  by_cases hrc : res.returncode = 0
  · simp only [hrc, not_true_eq_false, if_false] at h
    by_cases he : pyStrip res.stdout = "" ∨ pyStrip res.stdout = "-"
    · simp [he] at h
    · simp only [he, if_false, Option.some.injEq] at h
      intro hv
      exact he (Or.inl (h.trans hv))
  · simp [hrc] at h

/-- Claim C3: an absent, empty or `-` encryption-root attribute classifies the
dataset as unencrypted and the keystatus collaborator is never consulted (the
result is the same for every keystatus behaviour); otherwise the encryption
root's keystatus is classified: available is unlocked (OK), unavailable or
locked is locked, and any other value — an unreadable or empty keystatus
included — is rejected with the unexpected-status diagnostic. -/
theorem claim_C3 :
    (ZfsCheckUnlocked.get_encryption_root = ZfsResticBackup.get_encryption_root) ∧
    (ZfsCheckUnlocked.get_keystatus = ZfsResticBackup.get_keystatus) ∧
    (∀ res : Completed,
      ¬ res.returncode = 0 ∨ pyStrip res.stdout = "" ∨ pyStrip res.stdout = "-" →
      ZfsCheckUnlocked.get_encryption_root res = none) ∧
    (∀ (w : ZfsCheckUnlocked.CheckWorld) (path ds : String),
      ZfsCheckUnlocked.get_dataset_for_path w.listRes (w.abspath path) = some ds →
      ¬ ds = "" →
      ((ZfsCheckUnlocked.get_encryption_root (w.encRootOf ds) = none →
          ZfsCheckUnlocked.check_path w path = none ∧
          ∀ ks : String → Completed,
            ZfsCheckUnlocked.check_path { w with keystatusOf := ks } path = none) ∧
       (∀ root : String,
          ZfsCheckUnlocked.get_encryption_root (w.encRootOf ds) = some root →
          ((ZfsCheckUnlocked.get_keystatus (w.keystatusOf root) = some "available" →
              ZfsCheckUnlocked.check_path w path = none) ∧
           (ZfsCheckUnlocked.get_keystatus (w.keystatusOf root) = some "unavailable" ∨
              ZfsCheckUnlocked.get_keystatus (w.keystatusOf root) = some "locked" →
              ZfsCheckUnlocked.check_path w path =
                some (ZfsCheckUnlocked.lockedMsg (w.abspath path) root)) ∧
           (∀ st : Option String,
              ZfsCheckUnlocked.get_keystatus (w.keystatusOf root) = st →
              ¬ st = some "available" → ¬ st = some "unavailable" →
              ¬ st = some "locked" →
              ZfsCheckUnlocked.check_path w path =
                some (ZfsCheckUnlocked.unexpectedMsg st root (w.abspath path))))))) := by
  refine ⟨rfl, rfl, ?_, ?_⟩
  · intro res h
    unfold ZfsCheckUnlocked.get_encryption_root
    rcases h with h | h | h
    · simp [h]
    · by_cases hrc : res.returncode = 0 <;> simp [hrc, h]
    · by_cases hrc : res.returncode = 0 <;> simp [hrc, h]
  · intro w path ds hds hne
    constructor
    · intro henc
      constructor
      · simp [ZfsCheckUnlocked.check_path, hds, hne, henc]
      · intro ks
        simp [ZfsCheckUnlocked.check_path, hds, hne, henc]
    · intro root hroot
      have hrne := get_encryption_root_ne_empty (w.encRootOf ds) root hroot
      refine ⟨?_, ?_, ?_⟩
      · intro hav
        simp [ZfsCheckUnlocked.check_path, hds, hne, hroot, hrne, hav]
      · intro hlock
        rcases hlock with h | h <;>
          simp [ZfsCheckUnlocked.check_path, hds, hne, hroot, hrne, h]
      · intro st hst h1 h2 h3
        subst hst
        simp [ZfsCheckUnlocked.check_path, hds, hne, hroot, hrne, h1, h2, h3]

/-- Concrete check-mode environment used by the witnesses: one dataset
`tank/secrets` mounted at `/mnt/secrets`, its own encryption root, keystatus
`available`. -/
def cwAvail : ZfsCheckUnlocked.CheckWorld where
  abspath := fun s => s
  listRes := ⟨0, "tank/secrets\t/mnt/secrets", ""⟩
  encRootOf := fun _ => ⟨0, "tank/secrets", ""⟩
  keystatusOf := fun _ => ⟨0, "available", ""⟩

/-- Witness for claim C3: the available-keystatus branch at a concrete
environment reports OK. -/
theorem claim_C3_witness :
    ZfsCheckUnlocked.check_path cwAvail "/mnt/secrets" = none :=
  ((claim_C3.2.2.2 cwAvail "/mnt/secrets" "tank/secrets" (by decide) (by decide)).2
      "tank/secrets" (by decide)).1 (by decide)

/-! ### Lock-check mode exit policy -/

/-- Claim C9, amended: with at least one path argument, the lock-check mode
exits 0 iff every argument that is nonempty after stripping passes
`check_path` (whitespace-only arguments are skipped); the stderr lines are
exactly the diagnostics of the failing paths, in order, one per failing
path, with every path checked; and the exit code is always 0 or 1. -/
theorem claim_C9 (w : ZfsCheckUnlocked.CheckWorld) (argv : List String)
    (h : ¬ argv = []) :
    ((ZfsCheckUnlocked.main w argv).1 = 0 ↔
      ∀ a ∈ argv, ¬ pyStrip a = "" →
        ZfsCheckUnlocked.check_path w (pyStrip a) = none) ∧
    (ZfsCheckUnlocked.main w argv).2 =
      argv.filterMap (fun a =>
        if pyStrip a = "" then none
        else ZfsCheckUnlocked.check_path w (pyStrip a)) ∧
    ((ZfsCheckUnlocked.main w argv).1 = 0 ∨ (ZfsCheckUnlocked.main w argv).1 = 1) := by
  have hmain : ZfsCheckUnlocked.main w argv =
      (if argv.filterMap (fun a =>
          if pyStrip a = "" then none
          else ZfsCheckUnlocked.check_path w (pyStrip a)) = [] then (0 : Int) else 1,
        argv.filterMap (fun a =>
          if pyStrip a = "" then none
          else ZfsCheckUnlocked.check_path w (pyStrip a))) := by
    simp [ZfsCheckUnlocked.main, h]
  have key : argv.filterMap (fun a =>
      if pyStrip a = "" then none
      else ZfsCheckUnlocked.check_path w (pyStrip a)) = [] ↔
      ∀ a ∈ argv, ¬ pyStrip a = "" →
        ZfsCheckUnlocked.check_path w (pyStrip a) = none := by
    rw [List.filterMap_eq_nil_iff]
    constructor
    · intro hall a ha hne
      have := hall a ha
      simpa [hne] using this
    · intro hall a ha
      by_cases he : pyStrip a = ""
      · simp [he]
      · simp [he, hall a ha he]
  refine ⟨?_, ?_, ?_⟩
  · rw [hmain]
    by_cases hnil : argv.filterMap (fun a =>
        if pyStrip a = "" then none
        else ZfsCheckUnlocked.check_path w (pyStrip a)) = []
    · simp only [hnil, if_true]
      exact iff_of_true trivial (key.mp hnil)
    · simp only [hnil, if_false]
      exact iff_of_false (by norm_num) (fun hr => hnil (key.mpr hr))
  · rw [hmain]
  · rw [hmain]
    by_cases hnil : argv.filterMap (fun a =>
        if pyStrip a = "" then none
        else ZfsCheckUnlocked.check_path w (pyStrip a)) = [] <;> simp [hnil]

/-- Check-mode environment in which no path resolves to any dataset (the
listing command fails). -/
def cwNone : ZfsCheckUnlocked.CheckWorld where
  abspath := fun s => if s = "" then "/cwd" else s
  listRes := ⟨1, "", ""⟩
  encRootOf := fun _ => ⟨1, "", ""⟩
  keystatusOf := fun _ => ⟨1, "", ""⟩

/-- Counterexample to claim C9 as stated: with the single path argument `""`
(whitespace-only after stripping), the process exits 0 even though that given
path does not resolve to an unencrypted or unlocked dataset — the stated
equivalence fails at this input. -/
theorem claim_C9_counterexample :
    (ZfsCheckUnlocked.main cwNone [""]).1 = 0 ∧
      ¬ ZfsCheckUnlocked.check_path cwNone "" = none ∧
      ¬ ((ZfsCheckUnlocked.main cwNone [""]).1 = 0 ↔
        ∀ a ∈ ([""] : List String), ZfsCheckUnlocked.check_path cwNone a = none) := by
  decide

/-- Witness for claim C9 (amended) at a concrete input: one unlocked path,
exit 0. -/
theorem claim_C9_witness :
    (ZfsCheckUnlocked.main cwAvail ["/mnt/secrets"]).1 = 0 :=
  (claim_C9 cwAvail ["/mnt/secrets"] (by decide)).1.mpr (by decide)

/-! ### Backup orchestrator: reaching the snapshot phase -/

theorem main_reaches_snap (argv : List String) (w : ZfsResticBackup.World)
    (rb : Option String) (mp rcmd : String) (rargs : List String) (ds : String)
    (hparse : ZfsResticBackup.parse_args argv = (rb, mp, rargs))
    (hmp : ¬ mp = "")
    (hcmd : ZfsResticBackup.resticCmdResolve w rb = some rcmd)
    (hz1 : w.zfsVerFound = true) (hz2 : w.zfsVer.returncode = 0)
    (hr1 : w.resticVerFound = true) (hr2 : w.resticVer.returncode = 0)
    (hdir : w.isDir (w.abspath mp) = true)
    (hds : ZfsResticBackup.get_dataset_for_path w.listRes (w.abspath mp) = some ds)
    (hds2 : ¬ ds = "")
    (hlock : (ZfsResticBackup.get_encryption_root w.encRes).getD "" = "" ∨
      ZfsResticBackup.get_keystatus w.ksRes = some "available") :
    ZfsResticBackup.main argv w =
      ZfsResticBackup.mainSnap w rcmd (w.abspath mp) ds
        (ZfsResticBackup.snapNameOf w) rargs := by
  unfold ZfsResticBackup.main
  rw [hparse]
  simp only [hmp, if_false, hcmd, hz1, hz2, hr1, hr2, hdir, Bool.true_eq_false,
    not_true_eq_false, not_false_eq_true, if_true]
  unfold ZfsResticBackup.mainLock
  rw [hds]
  simp only [hds2, if_false]
  rcases hlock with h | h
  · simp [h]
  · by_cases he : (ZfsResticBackup.get_encryption_root w.encRes).getD "" = ""
    · simp [he]
    · simp [he, h]

/-- Claim C1: when the restic invocation exits nonzero, the orchestrator
reports that same exit code as its own, the snapshot created during the run
still exists when it returns, and no destroy was issued. -/
theorem claim_C1 (argv : List String) (w : ZfsResticBackup.World)
    (rb : Option String) (mp rcmd : String) (rargs : List String) (ds t : String)
    (hparse : ZfsResticBackup.parse_args argv = (rb, mp, rargs))
    (hmp : ¬ mp = "")
    (hcmd : ZfsResticBackup.resticCmdResolve w rb = some rcmd)
    (hz1 : w.zfsVerFound = true) (hz2 : w.zfsVer.returncode = 0)
    (hr1 : w.resticVerFound = true) (hr2 : w.resticVer.returncode = 0)
    (hdir : w.isDir (w.abspath mp) = true)
    (hds : ZfsResticBackup.get_dataset_for_path w.listRes (w.abspath mp) = some ds)
    (hds2 : ¬ ds = "")
    (hlock : (ZfsResticBackup.get_encryption_root w.encRes).getD "" = "" ∨
      ZfsResticBackup.get_keystatus w.ksRes = some "available")
    (hsnap : w.snapCreate.returncode = 0)
    (ht : ZfsResticBackup.get_snapshot_creation_time w.creationRes = some t)
    (ht2 : ¬ t = "")
    (hview : w.isDir (w.abspath mp ++ "/.zfs/snapshot/" ++ ZfsResticBackup.snapNameOf w) = true)
    (hrc : ¬ w.resticRes.returncode = 0) :
    (ZfsResticBackup.main argv w).outcome = .exit w.resticRes.returncode ∧
      (ZfsResticBackup.main argv w).snaps =
        [ds ++ "@" ++ ZfsResticBackup.snapNameOf w] ∧
      (ZfsResticBackup.main argv w).destroys = [] := by
  rw [main_reaches_snap argv w rb mp rcmd rargs ds hparse hmp hcmd hz1 hz2 hr1 hr2
    hdir hds hds2 hlock]
  unfold ZfsResticBackup.mainSnap ZfsResticBackup.runCmd pyRun
  simp [hsnap, ht, ht2, hview, hrc]

/-- Claim C2: after a successful snapshot creation, a failed creation-time
resolution or a missing snapshot view directory makes the orchestrator issue
a best-effort destroy of the just-created snapshot and return exit code 1
(and when the destroy command succeeds, the snapshot is gone). -/
theorem claim_C2 (argv : List String) (w : ZfsResticBackup.World)
    (rb : Option String) (mp rcmd : String) (rargs : List String) (ds : String)
    (hparse : ZfsResticBackup.parse_args argv = (rb, mp, rargs))
    (hmp : ¬ mp = "")
    (hcmd : ZfsResticBackup.resticCmdResolve w rb = some rcmd)
    (hz1 : w.zfsVerFound = true) (hz2 : w.zfsVer.returncode = 0)
    (hr1 : w.resticVerFound = true) (hr2 : w.resticVer.returncode = 0)
    (hdir : w.isDir (w.abspath mp) = true)
    (hds : ZfsResticBackup.get_dataset_for_path w.listRes (w.abspath mp) = some ds)
    (hds2 : ¬ ds = "")
    (hlock : (ZfsResticBackup.get_encryption_root w.encRes).getD "" = "" ∨
      ZfsResticBackup.get_keystatus w.ksRes = some "available")
    (hsnap : w.snapCreate.returncode = 0)
    (hfail : ZfsResticBackup.get_snapshot_creation_time w.creationRes = none ∨
      (∃ t, ZfsResticBackup.get_snapshot_creation_time w.creationRes = some t ∧
        ¬ t = "" ∧
        w.isDir (w.abspath mp ++ "/.zfs/snapshot/" ++ ZfsResticBackup.snapNameOf w)
          = false)) :
    (ZfsResticBackup.main argv w).outcome = .exit 1 ∧
      (ZfsResticBackup.main argv w).destroys =
        [ds ++ "@" ++ ZfsResticBackup.snapNameOf w] ∧
      (w.destroyRes.returncode = 0 → (ZfsResticBackup.main argv w).snaps = []) := by
  rw [main_reaches_snap argv w rb mp rcmd rargs ds hparse hmp hcmd hz1 hz2 hr1 hr2
    hdir hds hds2 hlock]
  unfold ZfsResticBackup.mainSnap ZfsResticBackup.runCmd pyRun
  rcases hfail with h | ⟨t, ht, ht2, hv⟩
  · simp [hsnap, h]
  · simp [hsnap, ht, ht2, hv]

/-- Claim C8: the restic invocation is the command list
restic-binary, backup, --time, resolved timestamp, dot, followed by the
passthrough arguments unmodified and last, run with the snapshot view
directory as working directory. -/
theorem claim_C8 (argv : List String) (w : ZfsResticBackup.World)
    (rb : Option String) (mp rcmd : String) (rargs : List String) (ds t : String)
    (hparse : ZfsResticBackup.parse_args argv = (rb, mp, rargs))
    (hmp : ¬ mp = "")
    (hcmd : ZfsResticBackup.resticCmdResolve w rb = some rcmd)
    (hz1 : w.zfsVerFound = true) (hz2 : w.zfsVer.returncode = 0)
    (hr1 : w.resticVerFound = true) (hr2 : w.resticVer.returncode = 0)
    (hdir : w.isDir (w.abspath mp) = true)
    (hds : ZfsResticBackup.get_dataset_for_path w.listRes (w.abspath mp) = some ds)
    (hds2 : ¬ ds = "")
    (hlock : (ZfsResticBackup.get_encryption_root w.encRes).getD "" = "" ∨
      ZfsResticBackup.get_keystatus w.ksRes = some "available")
    (hsnap : w.snapCreate.returncode = 0)
    (ht : ZfsResticBackup.get_snapshot_creation_time w.creationRes = some t)
    (ht2 : ¬ t = "")
    (hview : w.isDir (w.abspath mp ++ "/.zfs/snapshot/" ++ ZfsResticBackup.snapNameOf w) = true) :
    (ZfsResticBackup.main argv w).resticCall =
      some ([rcmd, "backup", "--time", t, "."] ++ rargs,
        w.abspath mp ++ "/.zfs/snapshot/" ++ ZfsResticBackup.snapNameOf w) := by
  rw [main_reaches_snap argv w rb mp rcmd rargs ds hparse hmp hcmd hz1 hz2 hr1 hr2
    hdir hds hds2 hlock]
  unfold ZfsResticBackup.mainSnap ZfsResticBackup.runCmd pyRun
  by_cases hrc : w.resticRes.returncode = 0
  · simp [hsnap, ht, ht2, hview, hrc]
  · simp [hsnap, ht, ht2, hview, hrc]

/-- Concrete backup-mode environment used by witnesses: one unencrypted
dataset `tank/data` at `/mnt/data`, all pre-flight checks succeed, snapshot
creation and destroy succeed, creation time 1704067200, restic exits 3. -/
def wBase : ZfsResticBackup.World where
  resolve := fun s => s
  abspath := fun s => s
  isFile := fun _ => true
  isExec := fun _ => true
  isDir := fun _ => true
  zfsVerFound := true
  zfsVer := ⟨0, "zfs-2.2.4", ""⟩
  resticVerFound := true
  resticVer := ⟨0, "restic 0.16.4", ""⟩
  pid := 4242
  nodename := "truenas"
  now := ⟨2024, 1, 1, 0, 0, 0⟩
  listRes := ⟨0, "tank/data\t/mnt/data", ""⟩
  encRes := ⟨0, "-", ""⟩
  ksRes := ⟨0, "available", ""⟩
  snapCreate := ⟨0, "", ""⟩
  creationRes := ⟨0, "1704067200", ""⟩
  resticRes := ⟨3, "", ""⟩
  destroyRes := ⟨0, "", ""⟩

/-- Witness for claim C1: restic exits 3, the orchestrator reports 3, the
snapshot still exists, no destroy was issued. -/
theorem claim_C1_witness :
    (ZfsResticBackup.main ["/mnt/data"] wBase).outcome = .exit wBase.resticRes.returncode ∧
      (ZfsResticBackup.main ["/mnt/data"] wBase).snaps =
        ["tank/data" ++ "@" ++ ZfsResticBackup.snapNameOf wBase] ∧
      (ZfsResticBackup.main ["/mnt/data"] wBase).destroys = [] :=
  claim_C1 ["/mnt/data"] wBase none "/mnt/data" "restic" [] "tank/data"
    "2024-01-01 00:00:00" (by decide) (by decide) (by decide) (by decide) (by decide)
    (by decide) (by decide) (by decide) (by decide) (by decide)
    (Or.inl (by decide)) (by decide) (by decide) (by decide) (by decide) (by decide)

/-- Backup-mode environment in which the creation-time query fails. -/
def wTimeFail : ZfsResticBackup.World := { wBase with creationRes := ⟨1, "", ""⟩ }

/-- Witness for claim C2: creation-time resolution fails, the snapshot is
destroyed and the orchestrator exits 1. -/
theorem claim_C2_witness :
    (ZfsResticBackup.main ["/mnt/data"] wTimeFail).outcome = .exit 1 ∧
      (ZfsResticBackup.main ["/mnt/data"] wTimeFail).destroys =
        ["tank/data" ++ "@" ++ ZfsResticBackup.snapNameOf wTimeFail] ∧
      (wTimeFail.destroyRes.returncode = 0 →
        (ZfsResticBackup.main ["/mnt/data"] wTimeFail).snaps = []) :=
  claim_C2 ["/mnt/data"] wTimeFail none "/mnt/data" "restic" [] "tank/data"
    (by decide) (by decide) (by decide) (by decide) (by decide) (by decide)
    (by decide) (by decide) (by decide) (by decide) (Or.inl (by decide))
    (by decide) (Or.inl (by decide))

/-- Witness for claim C8: the restic call at the concrete environment. -/
theorem claim_C8_witness :
    (ZfsResticBackup.main ["/mnt/data", "--", "--tag", "t1"] wBase).resticCall =
      some (["restic", "backup", "--time", "2024-01-01 00:00:00", "."] ++
          ["--tag", "t1"],
        "/mnt/data" ++ "/.zfs/snapshot/" ++ ZfsResticBackup.snapNameOf wBase) :=
  claim_C8 ["/mnt/data", "--", "--tag", "t1"] wBase none "/mnt/data" "restic"
    ["--tag", "t1"] "tank/data" "2024-01-01 00:00:00" (by decide) (by decide)
    (by decide) (by decide) (by decide) (by decide) (by decide) (by decide)
    (by decide) (by decide) (Or.inl (by decide)) (by decide) (by decide)
    (by decide) (by decide)

/-! ### Command proxy: exception behaviour -/

theorem mainSnap_raised_aux (w : ZfsResticBackup.World) (rcmd sp ds sn : String)
    (rargs : List String) (e : CalledProcessError)
    (h : (ZfsResticBackup.mainSnap w rcmd sp ds sn rargs).outcome = .raised e) :
    ¬ w.snapCreate.returncode = 0 ∧ e = ⟨w.snapCreate.returncode⟩ := by
  unfold ZfsResticBackup.mainSnap ZfsResticBackup.runCmd pyRun at h
  split at h
  · rename_i e2 heq
    dsimp only at h
    by_cases hc : w.snapCreate.returncode = 0
    · rw [if_neg (by simp [hc])] at heq
      cases heq
    · rw [if_pos ⟨rfl, hc⟩] at heq
      injection heq with h2
      subst h2
      injection h with h3
      exact ⟨hc, h3.symm⟩
  · rename_i res heq
    dsimp only at h
    split at h
    · simp at h
    · split at h
      · simp at h
      · split at h
        · simp at h
        · simp at h

theorem mainLock_raised_aux (w : ZfsResticBackup.World) (rcmd sp sn : String)
    (rargs : List String) (e : CalledProcessError)
    (h : (ZfsResticBackup.mainLock w rcmd sp sn rargs).outcome = .raised e) :
    ¬ w.snapCreate.returncode = 0 ∧ e = ⟨w.snapCreate.returncode⟩ := by
  unfold ZfsResticBackup.mainLock at h
  split at h
  · simp at h
  · rename_i ds heq
    split at h
    · simp at h
    · dsimp only at h
      split at h
      · split at h
        · simp at h
        · split at h
          · simp at h
          · exact mainSnap_raised_aux w rcmd sp ds sn rargs e h
      · exact mainSnap_raised_aux w rcmd sp ds sn rargs e h

/-- Backup-mode environment in which the snapshot-create command fails. -/
def wSnapFail : ZfsResticBackup.World := { wBase with snapCreate := ⟨1, "", ""⟩ }

/-- Counterexample to claim C4 as stated: the backup script passes the
default check=True for the snapshot-create invocation, so a nonzero exit of
that invoked program raises `CalledProcessError` through the proxy instead of
returning the completed result — and the exception escapes `main`. -/
theorem claim_C4_counterexample :
    ZfsResticBackup.runCmd ⟨1, "", ""⟩ true = .error ⟨1⟩ ∧
      (ZfsResticBackup.main ["/mnt/data"] wSnapFail).outcome = .raised ⟨1⟩ :=
  ⟨rfl, by decide⟩

/-- Claim C4, amended: the check-script proxy never raises; the backup-script
proxy returns the completed result whenever check=False (which every call
site except snapshot creation passes) or the exit is zero, and raises
`CalledProcessError` exactly for check=True with a nonzero exit; moreover the
only way a backup `main` run ends in an exception is a nonzero exit of the
snapshot-create invocation, and the exception carries that exit code. -/
theorem claim_C4 :
    (∀ res : Completed, ZfsCheckUnlocked.runCmd res = .ok res) ∧
    (∀ (res : Completed) (check : Bool), check = false →
      ZfsResticBackup.runCmd res check = .ok res) ∧
    (∀ res : Completed, res.returncode = 0 →
      ZfsResticBackup.runCmd res true = .ok res) ∧
    (∀ res : Completed, ¬ res.returncode = 0 →
      ZfsResticBackup.runCmd res true = .error ⟨res.returncode⟩) ∧
    (∀ (argv : List String) (w : ZfsResticBackup.World) (e : CalledProcessError),
      (ZfsResticBackup.main argv w).outcome = .raised e →
      ¬ w.snapCreate.returncode = 0 ∧ e = ⟨w.snapCreate.returncode⟩) := by
  refine ⟨?_, ?_, ?_, ?_, ?_⟩
  · intro res
    simp [ZfsCheckUnlocked.runCmd, pyRun]
  · intro res check hc
    simp [ZfsResticBackup.runCmd, pyRun, hc]
  · intro res h
    simp [ZfsResticBackup.runCmd, pyRun, h]
  · intro res h
    simp [ZfsResticBackup.runCmd, pyRun, h]
  · intro argv w e h
    unfold ZfsResticBackup.main at h
    cases hp : ZfsResticBackup.parse_args argv with
    | mk rb rest =>
      cases rest with
      | mk mp rargs =>
        rw [hp] at h
        dsimp only at h
        split at h
        · simp at h
        · split at h
          · simp at h
          · rename_i rcmd heq
            split at h
            · simp at h
            · split at h
              · simp at h
              · split at h
                · simp at h
                · split at h
                  · simp at h
                  · split at h
                    · simp at h
                    · exact mainLock_raised_aux w rcmd (w.abspath mp)
                        (ZfsResticBackup.snapNameOf w) rargs e h

/-- Witness for claim C4 (amended): a check=False invocation of the backup
proxy with a failing command returns the completed result. -/
theorem claim_C4_witness :
    ZfsResticBackup.runCmd ⟨5, "out", "err"⟩ false = .ok ⟨5, "out", "err"⟩ :=
  claim_C4.2.1 ⟨5, "out", "err"⟩ false (by decide)
